import Mathlib

/-!
Verification of the Conversation Store Gateway
(`src/utils/firebase_utils.py`).

The module is a thin data-access layer over a remote Firestore document
database.  We embed it shallowly:

* The process environment and the fallible SDK construction steps
  (`json.loads`, `service_account.Credentials.from_service_account_info`,
  `firestore.Client(...)`) are packaged into an `Env` record whose fields
  are total functions returning `Except`, so that "raises an exception"
  becomes an `.error` value.
* The module-level mutable handle `db` is threaded explicitly: `get_db`
  takes the current handle state and returns the new one (in the source,
  the returned value and the value stored into the global `db` coincide on
  every path).
* The remote document store is modelled by a `World` holding the two
  collections, a counter for store-generated document ids, a
  strictly-increasing server clock backing `firestore.SERVER_TIMESTAMP`,
  and a local wall clock backing `datetime.utcnow().timestamp()`.
* Each of the four operations takes `Env`, the handle state and the
  `World`, and returns the new handle state, the new `World` and either an
  `HTTPException` or its result, mirroring the Python control flow.
-/

/-- Result of `json.loads` on the credential blob: a string-keyed mapping.
Only the `project_id` lookup (`info.get("project_id")`, which may be
absent) is observed by the code, so the mapping is abstracted to it. -/
structure Json where
  project_id : Option String
deriving DecidableEq, Repr

/-- Opaque service-account credentials built from a parsed blob
(`service_account.Credentials.from_service_account_info(info)`). -/
structure Creds where
  source : Json
deriving DecidableEq, Repr

/-- A `firestore.Client`.  The data lives in `World`; the client itself
only records the project it was constructed for. -/
structure Client where
  project : Option String
deriving DecidableEq, Repr

/-- The process environment and the fallible SDK entry points that
`get_db` composes.  `Except.error` models a raised exception. -/
structure Env where
  /-- `os.getenv("FIREBASE_CREDENTIALS_JSON")`. -/
  firebase_json : Option String
  /-- `os.getenv("GOOGLE_APPLICATION_CREDENTIALS")`. -/
  cred_path : Option String
  /-- `os.path.exists`. -/
  fileExists : String → Bool
  /-- `json.loads`; raises on malformed input (in particular on `""`). -/
  parseJson : String → Except String Json
  /-- `service_account.Credentials.from_service_account_info`. -/
  fromServiceAccountInfo : Json → Except String Creds
  /-- `firestore.Client(credentials=creds, project=p)`. -/
  clientFromCreds : Creds → Option String → Except String Client
  /-- `firestore.Client()` with ambient default-credential discovery. -/
  clientDefault : Except String Client

/-- Python truthiness of `os.getenv`'s result: `None` and `""` are falsy. -/
def pyTruthy : Option String → Bool
  | none => false
  | some s => s ≠ ""

/-- The branch of `get_db` taken when `FIREBASE_CREDENTIALS_JSON` is
truthy: parse the blob, build service-account credentials, construct the
client with the blob's `project_id`; any raised exception is caught by the
enclosing `try` and yields `none`. -/
def acquireFromBlob (env : Env) (fj : String) : Option Client :=
  match env.parseJson fj with
  | .error _ => none
  | .ok info =>
    match env.fromServiceAccountInfo info with
    | .error _ => none
    | .ok creds =>
      match env.clientFromCreds creds info.project_id with
      | .error _ => none
      | .ok c => some c

/-- `firestore.Client()` under the enclosing `try`: a raised
`DefaultCredentialsError` (or any other exception) yields `none`. -/
def tryDefault (env : Env) : Option Client :=
  match env.clientDefault with
  | .error _ => none
  | .ok c => some c

/-- The branches of `get_db` taken when `FIREBASE_CREDENTIALS_JSON` is not
truthy: `if cred_path and os.path.exists(cred_path)` constructs a default
client, and so does the final fallback — the source keeps them separate,
so we do too. -/
def acquireNoBlob (env : Env) : Option Client :=
  match env.cred_path with
  | some p => if p ≠ "" ∧ env.fileExists p then tryDefault env else tryDefault env
  | none => tryDefault env

/-- The whole `try` block of `get_db`, with every exception caught and
turned into `none` (the `except Exception` clause). -/
def acquire (env : Env) : Option Client :=
  match env.firebase_json with
  | some fj => if fj ≠ "" then acquireFromBlob env fj else acquireNoBlob env
  | none => acquireNoBlob env

/-- `get_db`.  Takes the current value of the module-level global `db` and
returns its new value, which is also what the function returns to the
caller: `if db is not None: return db`, otherwise run the `try` block,
assigning the constructed client (or `None` on exception) to `db`. -/
def get_db (env : Env) (db : Option Client) : Option Client :=
  match db with
  | some c => some c
  | none => acquire env

/-- The module-level initial state of the global handle: `db = None`. -/
def initial_db : Option Client := none

/-- A document of the `"conversations"` collection, with the fields
written by `create_new_chat` (`to_dict` returns exactly these). -/
structure ThreadDoc where
  id : String
  title : String
  createdAt : Nat
  uid : String
deriving DecidableEq, Repr

/-- A document of the `"messages"` collection, with the fields written by
`store_message` (`to_dict` returns exactly these). -/
structure MessageDoc where
  id : String
  conversationId : String
  question : String
  answer : String
  createdAt : Nat
  uid : String
deriving DecidableEq, Repr

/-- The remote document store plus the clocks feeding it.  `serverTime`
backs `firestore.SERVER_TIMESTAMP` and increases strictly between writes;
`localClock` backs `datetime.utcnow().timestamp()`; `nextDocId` feeds the
store-generated ids of `client.collection(...).document()`. -/
structure World where
  conversations : List ThreadDoc
  messages : List MessageDoc
  nextDocId : Nat
  serverTime : Nat
  localClock : Nat
deriving DecidableEq, Repr

/-- The store-generated document id handed out by
`client.collection("conversations").document()`. -/
def genDocId (n : Nat) : String := "doc" ++ toString n

/-- `fastapi.HTTPException(status_code=..., detail=...)`. -/
structure HTTPException where
  status_code : Nat
  detail : String
deriving DecidableEq, Repr

/-- Outcome of one operation: the new global handle state, the new store
state, and either the raised `HTTPException` or the return value. -/
structure OpResult (α : Type) where
  db : Option Client
  world : World
  result : Except HTTPException α
deriving Repr

/-- Stable insertion by a Boolean "comes at or before" test, used to model
the store's `order_by` execution. -/
def insertBy (le : α → α → Bool) (a : α) : List α → List α
  | [] => [a]
  | b :: l => if le a b then a :: b :: l else b :: insertBy le a l

/-- Sorting by a Boolean "comes at or before" test. -/
def sortBy (le : α → α → Bool) : List α → List α
  | [] => []
  | a :: l => insertBy le a (sortBy le l)

/-- `create_new_chat(uid, title)`. -/
def create_new_chat (env : Env) (db : Option Client) (w : World)
    (uid : String) (title : String) : OpResult String :=
  match get_db env db with
  | none =>
    ⟨none, w, .error ⟨503, "Firestore is not configured. Set GOOGLE_APPLICATION_CREDENTIALS or FIREBASE_CREDENTIALS_JSON in environment."⟩⟩
  | some client =>
    let docId := genDocId w.nextDocId
    let doc : ThreadDoc := ⟨docId, title, w.serverTime, uid⟩
    ⟨some client,
     { w with conversations := w.conversations ++ [doc],
              nextDocId := w.nextDocId + 1,
              serverTime := w.serverTime + 1 },
     .ok docId⟩

/-- `get_chat_threads(uid)`: `"conversations"` filtered by
`("uid", "==", uid)`, ordered by `createdAt` `DESCENDING`. -/
def get_chat_threads (env : Env) (db : Option Client) (w : World)
    (uid : String) : OpResult (List ThreadDoc) :=
  match get_db env db with
  | none =>
    ⟨none, w, .error ⟨503, "Firestore is not configured. Set GOOGLE_APPLICATION_CREDENTIALS or FIREBASE_CREDENTIALS_JSON in environment."⟩⟩
  | some client =>
    let threads := w.conversations.filter (fun t => t.uid == uid)
    ⟨some client, w,
     .ok (sortBy (fun a b => Nat.ble b.createdAt a.createdAt) threads)⟩

/-- `store_message(uid, chat_id, user_msg, ai_msg)`. -/
def store_message (env : Env) (db : Option Client) (w : World)
    (uid : String) (chat_id : String) (user_msg : String) (ai_msg : String) :
    OpResult Bool :=
  match get_db env db with
  | none =>
    ⟨none, w, .error ⟨503, "Firestore is not configured. Set GOOGLE_APPLICATION_CREDENTIALS or FIREBASE_CREDENTIALS_JSON in environment."⟩⟩
  | some client =>
    let doc : MessageDoc :=
      ⟨toString w.localClock, chat_id, user_msg, ai_msg, w.serverTime, uid⟩
    ⟨some client,
     { w with messages := w.messages ++ [doc],
              serverTime := w.serverTime + 1,
              localClock := w.localClock + 1 },
     .ok true⟩

/-- `get_chat_messages(uid, chat_id)`: `"messages"` filtered by
`("conversationId", "==", chat_id)`, ordered by `createdAt` ascending.
The `uid` argument is accepted but never used, as in the source. -/
def get_chat_messages (env : Env) (db : Option Client) (w : World)
    (uid : String) (chat_id : String) : OpResult (List MessageDoc) :=
  match get_db env db with
  | none =>
    ⟨none, w, .error ⟨503, "Firestore is not configured. Set GOOGLE_APPLICATION_CREDENTIALS or FIREBASE_CREDENTIALS_JSON in environment."⟩⟩
  | some client =>
    let msgs := w.messages.filter (fun m => m.conversationId == chat_id)
    ⟨some client, w,
     .ok (sortBy (fun a b => Nat.ble a.createdAt b.createdAt) msgs)⟩

/-- The fixed remediation message repeated verbatim in all four
operations. -/
def unavailableDetail : String :=
  "Firestore is not configured. Set GOOGLE_APPLICATION_CREDENTIALS or FIREBASE_CREDENTIALS_JSON in environment."

/-! ### Lemmas about the modelled `order_by` execution -/

theorem insertBy_perm (le : α → α → Bool) (a : α) (l : List α) :
    List.Perm (insertBy le a l) (a :: l) := by
  induction l with
  | nil => exact List.Perm.refl _
  | cons b t ih =>
    by_cases h : le a b = true
    · simp [insertBy, h]
    · simp only [insertBy, h, if_neg, Bool.false_eq_true, not_false_eq_true]
      exact (ih.cons b).trans (List.Perm.swap a b t)

theorem sortBy_perm (le : α → α → Bool) (l : List α) :
    List.Perm (sortBy le l) l := by
  induction l with
  | nil => exact List.Perm.refl _
  | cons a t ih => exact (insertBy_perm le a (sortBy le t)).trans (ih.cons a)

theorem mem_sortBy {le : α → α → Bool} {l : List α} {x : α} :
    x ∈ sortBy le l ↔ x ∈ l :=
  (sortBy_perm le l).mem_iff

theorem pairwise_insertBy {le : α → α → Bool}
    (htot : ∀ x y, le x y = true ∨ le y x = true)
    (htrans : ∀ x y z, le x y = true → le y z = true → le x z = true)
    (a : α) {l : List α} (hl : l.Pairwise (fun x y => le x y = true)) :
    (insertBy le a l).Pairwise (fun x y => le x y = true) := by
  induction l with
  | nil => simp [insertBy]
  | cons b t ih =>
    rcases List.pairwise_cons.mp hl with ⟨hb, ht⟩
    by_cases h : le a b = true
    · simp only [insertBy, h, if_pos]
      refine List.pairwise_cons.mpr ⟨?_, hl⟩
      intro y hy
      rcases List.mem_cons.mp hy with rfl | hyt
      · exact h
      · exact htrans a b y h (hb y hyt)
    · have hba : le b a = true := (htot a b).resolve_left h
      simp only [insertBy, h, if_neg, Bool.false_eq_true, not_false_eq_true]
      refine List.pairwise_cons.mpr ⟨?_, ih ht⟩
      intro y hy
      rcases List.mem_cons.mp ((insertBy_perm le a t).mem_iff.mp hy) with rfl | hyt
      · exact hba
      · exact hb y hyt

theorem pairwise_sortBy {le : α → α → Bool}
    (htot : ∀ x y, le x y = true ∨ le y x = true)
    (htrans : ∀ x y z, le x y = true → le y z = true → le x z = true)
    (l : List α) :
    (sortBy le l).Pairwise (fun x y => le x y = true) := by
  induction l with
  | nil => simp [sortBy]
  | cons a t ih => exact pairwise_insertBy htot htrans a ih

theorem pairwise_and {R S : α → α → Prop} {l : List α}
    (hR : l.Pairwise R) (hS : l.Pairwise S) :
    l.Pairwise (fun a b => R a b ∧ S a b) := by
  induction l with
  | nil => exact List.Pairwise.nil
  | cons a t ih =>
    rcases List.pairwise_cons.mp hR with ⟨ha, ht⟩
    rcases List.pairwise_cons.mp hS with ⟨hb, hu⟩
    exact List.pairwise_cons.mpr ⟨fun y hy => ⟨ha y hy, hb y hy⟩, ih ht hu⟩

theorem insertBy_append {le : α → α → Bool} (a : α) (l₁ l₂ : List α)
    (h : ∀ b ∈ l₂, le a b = true) :
    insertBy le a (l₁ ++ l₂) = insertBy le a l₁ ++ l₂ := by
  induction l₁ with
  | nil =>
    cases l₂ with
    | nil => rfl
    | cons b t =>
      simp only [List.nil_append, insertBy, h b (List.mem_cons_self b t), if_pos,
        List.singleton_append]
  | cons b t ih =>
    by_cases hb : le a b = true
    · simp [insertBy, hb]
    · simp [insertBy, hb, ih]

theorem sortBy_append {le : α → α → Bool} (l₁ l₂ : List α)
    (h : ∀ x ∈ l₁, ∀ y ∈ l₂, le x y = true) :
    sortBy le (l₁ ++ l₂) = sortBy le l₁ ++ sortBy le l₂ := by
  induction l₁ with
  | nil => rfl
  | cons a t ih =>
    have hrest : sortBy le (t ++ l₂) = sortBy le t ++ sortBy le l₂ :=
      ih (fun x hx y hy => h x (List.mem_cons_of_mem a hx) y hy)
    have ha : ∀ b ∈ sortBy le l₂, le a b = true := fun b hb =>
      h a (List.mem_cons_self a t) b (mem_sortBy.mp hb)
    calc sortBy le (a :: (t ++ l₂))
        = insertBy le a (sortBy le t ++ sortBy le l₂) := by
          rw [sortBy, hrest]
      _ = insertBy le a (sortBy le t) ++ sortBy le l₂ :=
          insertBy_append a _ _ ha
      _ = sortBy le (a :: t) ++ sortBy le l₂ := by rw [sortBy]

/-! ### Concrete fixtures -/

/-- No credentials configured anywhere and no ambient credentials: every
construction attempt raises. -/
def envNoCreds : Env :=
  { firebase_json := none
    cred_path := none
    fileExists := fun _ => false
    parseJson := fun _ => .error "invalid json"
    fromServiceAccountInfo := fun _ => .error "missing fields"
    clientFromCreds := fun _ _ => .error "bad creds"
    clientDefault := .error "DefaultCredentialsError" }

/-- Ambient default-credential discovery succeeds. -/
def envDefaultOk : Env :=
  { envNoCreds with clientDefault := .ok ⟨some "proj"⟩ }

/-- The blob variable is set but `json.loads` raises on its contents. -/
def envParseFails : Env :=
  { envNoCreds with firebase_json := some "not json" }

/-- The blob parses but building service-account credentials raises. -/
def envSAFails : Env :=
  { envNoCreds with firebase_json := some "blob"
                    parseJson := fun _ => .ok ⟨some "p"⟩ }

/-- Credentials build but the client constructor raises. -/
def envClientFails : Env :=
  { envNoCreds with firebase_json := some "blob"
                    parseJson := fun _ => .ok ⟨some "p"⟩
                    fromServiceAccountInfo := fun i => .ok ⟨i⟩ }

/-- An empty store with all clocks at zero. -/
def w0 : World := ⟨[], [], 0, 0, 0⟩

/-- Both `if` branches of the file-path check construct the same default
client, so the check cannot change the outcome. -/
theorem acquireNoBlob_eq_tryDefault (env : Env) :
    acquireNoBlob env = tryDefault env := by
  unfold acquireNoBlob
  split
  · split <;> rfl
  · rfl

/-! ### Claims -/

/-- C1: for each of the four operations, if handle acquisition resolves to
unavailable (`get_db` returns `none`), the operation fails with an
`HTTPException` of status 503 carrying the same fixed remediation message
in all four operations; the outcome returns the store state unchanged and
is otherwise a constant independent of it, so no document-store read or
write happens before failing. -/
theorem C1_unavailable_503 (env : Env) (db : Option Client) (w : World)
    (uid title chat_id user_msg ai_msg : String)
    (h : get_db env db = none) :
    create_new_chat env db w uid title =
      ⟨none, w, .error ⟨503, unavailableDetail⟩⟩ ∧
    get_chat_threads env db w uid =
      ⟨none, w, .error ⟨503, unavailableDetail⟩⟩ ∧
    store_message env db w uid chat_id user_msg ai_msg =
      ⟨none, w, .error ⟨503, unavailableDetail⟩⟩ ∧
    get_chat_messages env db w uid chat_id =
      ⟨none, w, .error ⟨503, unavailableDetail⟩⟩ := by
  refine ⟨?_, ?_, ?_, ?_⟩ <;>
    simp only [create_new_chat, get_chat_threads, store_message,
      get_chat_messages, h, unavailableDetail]

/-- Witness for C1 at a concrete unconfigured environment. -/
theorem C1_unavailable_503_witness :
    get_db envNoCreds initial_db = none ∧
    (create_new_chat envNoCreds initial_db w0 "u1" "Untitled" =
      ⟨none, w0, .error ⟨503, unavailableDetail⟩⟩ ∧
    get_chat_threads envNoCreds initial_db w0 "u1" =
      ⟨none, w0, .error ⟨503, unavailableDetail⟩⟩ ∧
    store_message envNoCreds initial_db w0 "u1" "c1" "q" "a" =
      ⟨none, w0, .error ⟨503, unavailableDetail⟩⟩ ∧
    get_chat_messages envNoCreds initial_db w0 "u1" "c1" =
      ⟨none, w0, .error ⟨503, unavailableDetail⟩⟩) :=
  ⟨rfl, C1_unavailable_503 envNoCreds initial_db w0 "u1" "Untitled" "c1" "q" "a" rfl⟩

/-- C2: acquisition is a total function (it returns a value for every
configuration state), and on every failure path — malformed credential
JSON, failing credential construction, failing client construction, or
failing default discovery — `get_db` swallows the raised exception and
returns `none`, which is also the value stored into the handle. -/
theorem C2_acquisition_never_raises (env : Env) :
    (∀ fj e, env.firebase_json = some fj → fj ≠ "" →
       env.parseJson fj = .error e → get_db env none = none) ∧
    (∀ fj info e, env.firebase_json = some fj → fj ≠ "" →
       env.parseJson fj = .ok info →
       env.fromServiceAccountInfo info = .error e →
       get_db env none = none) ∧
    (∀ fj info creds e, env.firebase_json = some fj → fj ≠ "" →
       env.parseJson fj = .ok info →
       env.fromServiceAccountInfo info = .ok creds →
       env.clientFromCreds creds info.project_id = .error e →
       get_db env none = none) ∧
    (∀ e, pyTruthy env.firebase_json = false → env.clientDefault = .error e →
       get_db env none = none) := by
  refine ⟨?_, ?_, ?_, ?_⟩
  · intro fj e h1 h2 h3
    simp [get_db, acquire, h1, h2, acquireFromBlob, h3]
  · intro fj info e h1 h2 h3 h4
    simp [get_db, acquire, h1, h2, acquireFromBlob, h3, h4]
  · intro fj info creds e h1 h2 h3 h4 h5
    simp [get_db, acquire, h1, h2, acquireFromBlob, h3, h4, h5]
  · intro e h1 h2
    have hd : tryDefault env = none := by simp [tryDefault, h2]
    cases hfb : env.firebase_json with
    | none => simp [get_db, acquire, hfb, acquireNoBlob_eq_tryDefault, hd]
    | some s =>
      have hs : s = "" := by
        by_contra hne
        simp [pyTruthy, hfb, hne] at h1
      subst hs
      simp [get_db, acquire, hfb, acquireNoBlob_eq_tryDefault, hd]

/-- Witness for C2, one concrete environment per failure path. -/
theorem C2_acquisition_never_raises_witness :
    get_db envParseFails none = none ∧ get_db envSAFails none = none ∧
    get_db envClientFails none = none ∧ get_db envNoCreds none = none :=
  ⟨(C2_acquisition_never_raises envParseFails).1 "not json" "invalid json"
      rfl (by decide) rfl,
   (C2_acquisition_never_raises envSAFails).2.1 "blob" ⟨some "p"⟩
      "missing fields" rfl (by decide) rfl rfl,
   (C2_acquisition_never_raises envClientFails).2.2.1 "blob" ⟨some "p"⟩
      ⟨⟨some "p"⟩⟩ "bad creds" rfl (by decide) rfl rfl rfl,
   (C2_acquisition_never_raises envNoCreds).2.2.2 "DefaultCredentialsError"
      rfl rfl⟩

/-- C3 as stated is false: after one failed acquisition the handle is left
`None`, and since `get_db` only short-circuits when the handle `is not
None`, the very next call attempts acquisition again — here it succeeds
once ambient credentials have become valid, contradicting "the result is
cached ... never retried" for the unavailable case. -/
theorem C3_counterexample :
    get_db envNoCreds initial_db = none ∧
    get_db envDefaultOk (get_db envNoCreds initial_db) = some ⟨some "proj"⟩ ∧
    get_db envDefaultOk (get_db envNoCreds initial_db) ≠ none :=
  ⟨rfl, rfl, by decide⟩

/-- C3 amended: once acquisition resolves to a working handle that handle
is cached for the process lifetime and never retried; but a failed
acquisition is not cached — the handle stays unset and every later
`get_db` call runs the acquisition procedure afresh (so it can succeed
once credentials become valid). -/
theorem C3_success_cached_failure_retried (env env2 : Env) (c : Client) :
    get_db env (some c) = some c ∧ get_db env2 none = acquire env2 :=
  ⟨rfl, rfl⟩

/-- Modelled from the spec: handle acquisition as C4 words it, where "the
inline JSON credential blob variable is set" is read literally as present
in the environment — possibly as the empty string — rather than as
Python-truthy.  The rest follows the source's pipeline. -/
def acquire_spec (env : Env) : Option Client :=
  match env.firebase_json with
  | some fj => acquireFromBlob env fj
  | none =>
    match env.cred_path with
    | some p => if env.fileExists p then tryDefault env else tryDefault env
    | none => tryDefault env

/-- Modelled from the spec: `get_db` with acquisition per C4's wording. -/
def get_db_spec (env : Env) (db : Option Client) : Option Client :=
  match db with
  | some c => some c
  | none => acquire_spec env

/-- The blob variable is present but holds the empty string (which
`json.loads` would reject); ambient default discovery works. -/
def envEmptyBlob : Env :=
  { envNoCreds with firebase_json := some ""
                    clientDefault := .ok ⟨none⟩ }

/-- C4 as stated is false at an environment whose blob variable is set to
the empty string: the code tests Python truthiness (`if firebase_json:`),
so it skips the blob entirely and succeeds via default discovery, while
the claim's reading ("the variable is set" → parse the blob) would fail
the parse and leave the handle unavailable. -/
theorem C4_counterexample :
    get_db envEmptyBlob initial_db = some ⟨none⟩ ∧
    get_db_spec envEmptyBlob initial_db = none ∧
    get_db envEmptyBlob initial_db ≠ get_db_spec envEmptyBlob initial_db :=
  ⟨rfl, rfl, by decide⟩

/-- C4 amended: precedence holds with "set" read as "set to a non-empty
string".  First conjunct: with a truthy blob, the result is exactly the
parse / build-credentials / construct-client pipeline using the blob's
`project_id`.  Second conjunct: with a truthy blob the result does not
consult the file path, the file system, or default discovery — any
environment agreeing on the blob pipeline yields the same result.  Third
conjunct: with the blob unset or empty, the result is default-credential
discovery (both with and without a usable file path). -/
theorem C4_precedence (env : Env) :
    (∀ fj, env.firebase_json = some fj → fj ≠ "" →
       get_db env none =
         (match env.parseJson fj with
          | .error _ => none
          | .ok info =>
            match env.fromServiceAccountInfo info with
            | .error _ => none
            | .ok creds =>
              match env.clientFromCreds creds info.project_id with
              | .error _ => none
              | .ok c => some c)) ∧
    (∀ env2 : Env, env2.firebase_json = env.firebase_json →
       env2.parseJson = env.parseJson →
       env2.fromServiceAccountInfo = env.fromServiceAccountInfo →
       env2.clientFromCreds = env.clientFromCreds →
       pyTruthy env.firebase_json = true →
       get_db env2 none = get_db env none) ∧
    (pyTruthy env.firebase_json = false →
       get_db env none = tryDefault env) := by
  refine ⟨?_, ?_, ?_⟩
  · intro fj h1 h2
    simp [get_db, acquire, h1, h2, acquireFromBlob]
  · intro env2 hfb hp hs hc htr
    cases hfb2 : env.firebase_json with
    | none => simp [pyTruthy, hfb2] at htr
    | some fj =>
      have hne : fj ≠ "" := by
        by_contra he
        subst he
        simp [pyTruthy, hfb2] at htr
      have hfb2' : env2.firebase_json = some fj := by rw [hfb, hfb2]
      simp [get_db, acquire, hfb2, hfb2', hne, acquireFromBlob, hp, hs, hc]
  · intro htr
    have hd := acquireNoBlob_eq_tryDefault env
    cases hfb : env.firebase_json with
    | none => simp [get_db, acquire, hfb, hd]
    | some s =>
      have hs : s = "" := by
        by_contra hne
        simp [pyTruthy, hfb, hne] at htr
      subst hs
      simp [get_db, acquire, hfb, hd]

/-- A fully working inline-blob configuration, with a file path also
configured so the precedence is observable. -/
def envBlobOk : Env :=
  { firebase_json := some "service-account blob for blobproj"
    cred_path := some "/tmp/creds.json"
    fileExists := fun _ => true
    parseJson := fun _ => .ok ⟨some "blobproj"⟩
    fromServiceAccountInfo := fun i => .ok ⟨i⟩
    clientFromCreds := fun _ p => .ok ⟨p⟩
    clientDefault := .ok ⟨none⟩ }

/-- Witness for the amended C4: the blob environment yields the client
built for the blob's project; stripping the file path (and breaking
default discovery) changes nothing; an unconfigured-blob environment
falls back to default discovery. -/
theorem C4_precedence_witness :
    get_db envBlobOk none = some ⟨some "blobproj"⟩ ∧
    get_db { envBlobOk with cred_path := none
                            fileExists := fun _ => false
                            clientDefault := .error "x" } none =
      get_db envBlobOk none ∧
    get_db envDefaultOk none = tryDefault envDefaultOk :=
  ⟨((C4_precedence envBlobOk).1 "service-account blob for blobproj" rfl
      (by decide)).trans rfl,
   (C4_precedence envBlobOk).2.1
      { envBlobOk with cred_path := none
                       fileExists := fun _ => false
                       clientDefault := .error "x" } rfl rfl rfl rfl (by decide),
   (C4_precedence envDefaultOk).2.2 rfl⟩

/-- Store-generated thread ids are never empty. -/
theorem genDocId_ne_empty (n : Nat) : genDocId n ≠ "" := by
  intro h
  have hl := congrArg String.length h
  simp [genDocId, String.length_append] at hl
  exact absurd hl.1 (by decide)

/-- C5: with the handle available, create thread appends exactly one
record to `"conversations"` whose fields are the store-generated id, the
given title, the server-assigned creation timestamp and the given user id
(and touches nothing else); it returns that id, which is non-empty and
equals the `id` field of the inserted record; and a subsequent list-threads
call for the same user includes that id. -/
theorem C5_create_thread (env : Env) (db : Option Client) (w : World)
    (uid title : String) (c : Client) (h : get_db env db = some c) :
    create_new_chat env db w uid title =
      ⟨some c,
       { w with
           conversations := w.conversations ++ [⟨genDocId w.nextDocId, title, w.serverTime, uid⟩],
           nextDocId := w.nextDocId + 1,
           serverTime := w.serverTime + 1 },
       .ok (genDocId w.nextDocId)⟩ ∧
    genDocId w.nextDocId ≠ "" ∧
    (∃ l, (get_chat_threads env (some c)
        { w with
            conversations := w.conversations ++ [⟨genDocId w.nextDocId, title, w.serverTime, uid⟩],
            nextDocId := w.nextDocId + 1,
            serverTime := w.serverTime + 1 } uid).result = .ok l ∧
      ∃ t ∈ l, t.id = genDocId w.nextDocId) := by
  refine ⟨by simp [create_new_chat, h], genDocId_ne_empty w.nextDocId, ?_⟩
  refine ⟨_, rfl, ?_⟩
  refine ⟨⟨genDocId w.nextDocId, title, w.serverTime, uid⟩, ?_, rfl⟩
  rw [mem_sortBy]
  simp

/-- Witness for C5 on the empty store with working default credentials. -/
theorem C5_create_thread_witness :
    get_db envDefaultOk initial_db = some ⟨some "proj"⟩ ∧
    (create_new_chat envDefaultOk initial_db w0 "u1" "T" =
      ⟨some ⟨some "proj"⟩,
       { w0 with
           conversations := w0.conversations ++ [⟨genDocId w0.nextDocId, "T", w0.serverTime, "u1"⟩],
           nextDocId := w0.nextDocId + 1,
           serverTime := w0.serverTime + 1 },
       .ok (genDocId w0.nextDocId)⟩ ∧
    genDocId w0.nextDocId ≠ "" ∧
    (∃ l, (get_chat_threads envDefaultOk (some ⟨some "proj"⟩)
        { w0 with
            conversations := w0.conversations ++ [⟨genDocId w0.nextDocId, "T", w0.serverTime, "u1"⟩],
            nextDocId := w0.nextDocId + 1,
            serverTime := w0.serverTime + 1 } "u1").result = .ok l ∧
      ∃ t ∈ l, t.id = genDocId w0.nextDocId)) :=
  ⟨rfl, C5_create_thread envDefaultOk initial_db w0 "u1" "T" ⟨some "proj"⟩ rfl⟩

/-- C6: with the handle available, list threads leaves all state unchanged
and returns exactly the thread records whose `uid` equals the given user
id — a permutation of the store's matching records, nothing with another
uid, nothing matching left out — ordered by creation time descending, and
strictly so whenever the stored creation timestamps are pairwise distinct
(server-assigned timestamps are strictly increasing in this model); a user
with zero threads gets the empty sequence, not an error. -/
theorem C6_list_threads (env : Env) (db : Option Client) (w : World)
    (uid : String) (c : Client) (h : get_db env db = some c) :
    ∃ l, get_chat_threads env db w uid = ⟨some c, w, .ok l⟩ ∧
      List.Perm l (w.conversations.filter (fun t => t.uid == uid)) ∧
      (∀ t ∈ l, t.uid = uid) ∧
      (∀ t ∈ w.conversations, t.uid = uid → t ∈ l) ∧
      l.Pairwise (fun a b => b.createdAt ≤ a.createdAt) ∧
      (w.conversations.Pairwise (fun a b => a.createdAt ≠ b.createdAt) →
        l.Pairwise (fun a b => b.createdAt < a.createdAt)) ∧
      ((∀ t ∈ w.conversations, t.uid ≠ uid) → l = []) := by
  have htot : ∀ x y : ThreadDoc,
      Nat.ble y.createdAt x.createdAt = true ∨
      Nat.ble x.createdAt y.createdAt = true := by
    intro x y
    simp only [Nat.ble_eq]
    omega
  have htrans : ∀ x y z : ThreadDoc,
      Nat.ble y.createdAt x.createdAt = true →
      Nat.ble z.createdAt y.createdAt = true →
      Nat.ble z.createdAt x.createdAt = true := by
    intro x y z
    simp only [Nat.ble_eq]
    omega
  have hsorted :=
    pairwise_sortBy htot htrans (w.conversations.filter (fun t => t.uid == uid))
  refine ⟨sortBy (fun a b => Nat.ble b.createdAt a.createdAt)
      (w.conversations.filter (fun t => t.uid == uid)),
    by simp [get_chat_threads, h], sortBy_perm _ _, ?_, ?_, ?_, ?_, ?_⟩
  · intro t ht
    have hm := List.mem_filter.mp (mem_sortBy.mp ht)
    simpa using hm.2
  · intro t ht hu
    exact mem_sortBy.mpr (List.mem_filter.mpr ⟨ht, by simp [hu]⟩)
  · exact hsorted.imp (fun hab => by simpa using hab)
  · intro hdist
    have hdistf : (w.conversations.filter (fun t => t.uid == uid)).Pairwise
        (fun a b => a.createdAt ≠ b.createdAt) :=
      List.Pairwise.sublist (List.filter_sublist _) hdist
    have hdistl := hdistf.perm (sortBy_perm (fun a b => Nat.ble b.createdAt a.createdAt)
        (w.conversations.filter (fun t => t.uid == uid))).symm
      (fun hxy => hxy.symm)
    exact (pairwise_and hsorted hdistl).imp (fun hab => by
      rcases hab with ⟨h1, h2⟩
      simp only [Nat.ble_eq] at h1
      omega)
  · intro hz
    have hnil : w.conversations.filter (fun t => t.uid == uid) = [] :=
      List.filter_eq_nil_iff.mpr (fun t ht => by simp [hz t ht])
    rw [hnil]
    rfl

/-- Threads of two users with distinct, out-of-order creation times. -/
def wThreads : World :=
  ⟨[⟨"t1", "A", 1, "u1"⟩, ⟨"t2", "B", 3, "u2"⟩, ⟨"t3", "C", 2, "u1"⟩], [], 3, 4, 0⟩

/-- Witness for C6 on a store with three threads across two users. -/
theorem C6_list_threads_witness :
    get_db envDefaultOk initial_db = some ⟨some "proj"⟩ ∧
    (∃ l, get_chat_threads envDefaultOk initial_db wThreads "u1" =
        ⟨some ⟨some "proj"⟩, wThreads, .ok l⟩ ∧
      List.Perm l (wThreads.conversations.filter (fun t => t.uid == "u1")) ∧
      (∀ t ∈ l, t.uid = "u1") ∧
      (∀ t ∈ wThreads.conversations, t.uid = "u1" → t ∈ l) ∧
      l.Pairwise (fun a b => b.createdAt ≤ a.createdAt) ∧
      (wThreads.conversations.Pairwise (fun a b => a.createdAt ≠ b.createdAt) →
        l.Pairwise (fun a b => b.createdAt < a.createdAt)) ∧
      ((∀ t ∈ wThreads.conversations, t.uid ≠ "u1") → l = [])) :=
  ⟨rfl, C6_list_threads envDefaultOk initial_db wThreads "u1" ⟨some "proj"⟩ rfl⟩

/-- C7: with the handle available, list messages returns exactly the
message records whose `conversationId` equals the given thread id —
a permutation of the store's matching records, nothing from another
thread, nothing matching left out — ordered by creation time ascending,
strictly so whenever the stored creation timestamps are pairwise distinct.
Moreover, appending two messages to the thread (from any store whose
messages predate the server clock) and then listing that thread — under
any user id — returns the previously stored matching messages followed by
the two new records in insertion order, their server timestamps strictly
ascending. -/
theorem C7_list_messages (env : Env) (db : Option Client) (w : World)
    (uid uid2 chat_id q1 a1 q2 a2 : String) (c : Client)
    (h : get_db env db = some c) :
    (∃ l, get_chat_messages env db w uid chat_id = ⟨some c, w, .ok l⟩ ∧
      List.Perm l (w.messages.filter (fun m => m.conversationId == chat_id)) ∧
      (∀ m ∈ l, m.conversationId = chat_id) ∧
      (∀ m ∈ w.messages, m.conversationId = chat_id → m ∈ l) ∧
      l.Pairwise (fun a b => a.createdAt ≤ b.createdAt) ∧
      (w.messages.Pairwise (fun a b => a.createdAt ≠ b.createdAt) →
        l.Pairwise (fun a b => a.createdAt < b.createdAt))) ∧
    ((∀ m ∈ w.messages, m.createdAt < w.serverTime) →
      store_message env db w uid chat_id q1 a1 =
        ⟨some c,
         { w with
             messages := w.messages ++
               [⟨toString w.localClock, chat_id, q1, a1, w.serverTime, uid⟩],
             serverTime := w.serverTime + 1,
             localClock := w.localClock + 1 },
         .ok true⟩ ∧
      store_message env (some c)
        { w with
            messages := w.messages ++
              [⟨toString w.localClock, chat_id, q1, a1, w.serverTime, uid⟩],
            serverTime := w.serverTime + 1,
            localClock := w.localClock + 1 } uid chat_id q2 a2 =
        ⟨some c,
         { w with
             messages := (w.messages ++
               [⟨toString w.localClock, chat_id, q1, a1, w.serverTime, uid⟩]) ++
               [⟨toString (w.localClock + 1), chat_id, q2, a2, w.serverTime + 1, uid⟩],
             serverTime := w.serverTime + 1 + 1,
             localClock := w.localClock + 1 + 1 },
         .ok true⟩ ∧
      (get_chat_messages env (some c)
        { w with
            messages := (w.messages ++
              [⟨toString w.localClock, chat_id, q1, a1, w.serverTime, uid⟩]) ++
              [⟨toString (w.localClock + 1), chat_id, q2, a2, w.serverTime + 1, uid⟩],
            serverTime := w.serverTime + 1 + 1,
            localClock := w.localClock + 1 + 1 } uid2 chat_id).result =
        .ok (sortBy (fun a b => Nat.ble a.createdAt b.createdAt)
              (w.messages.filter (fun m => m.conversationId == chat_id)) ++
            [⟨toString w.localClock, chat_id, q1, a1, w.serverTime, uid⟩,
             ⟨toString (w.localClock + 1), chat_id, q2, a2, w.serverTime + 1, uid⟩])) := by
  have htot : ∀ x y : MessageDoc,
      Nat.ble x.createdAt y.createdAt = true ∨
      Nat.ble y.createdAt x.createdAt = true := by
    intro x y
    simp only [Nat.ble_eq]
    omega
  have htrans : ∀ x y z : MessageDoc,
      Nat.ble x.createdAt y.createdAt = true →
      Nat.ble y.createdAt z.createdAt = true →
      Nat.ble x.createdAt z.createdAt = true := by
    intro x y z
    simp only [Nat.ble_eq]
    omega
  constructor
  · have hsorted :=
      pairwise_sortBy htot htrans
        (w.messages.filter (fun m => m.conversationId == chat_id))
    refine ⟨sortBy (fun a b => Nat.ble a.createdAt b.createdAt)
        (w.messages.filter (fun m => m.conversationId == chat_id)),
      by simp [get_chat_messages, h], sortBy_perm _ _, ?_, ?_, ?_, ?_⟩
    · intro m hm
      have hmf := List.mem_filter.mp (mem_sortBy.mp hm)
      simpa using hmf.2
    · intro m hm hcid
      exact mem_sortBy.mpr (List.mem_filter.mpr ⟨hm, by simp [hcid]⟩)
    · exact hsorted.imp (fun hab => by simpa using hab)
    · intro hdist
      have hdistf : (w.messages.filter
          (fun m => m.conversationId == chat_id)).Pairwise
          (fun a b => a.createdAt ≠ b.createdAt) :=
        List.Pairwise.sublist (List.filter_sublist _) hdist
      have hdistl := hdistf.perm
        (sortBy_perm (fun a b => Nat.ble a.createdAt b.createdAt)
          (w.messages.filter (fun m => m.conversationId == chat_id))).symm
        (fun hxy => hxy.symm)
      exact (pairwise_and hsorted hdistl).imp (fun hab => by
        rcases hab with ⟨h1, h2⟩
        simp only [Nat.ble_eq] at h1
        omega)
  · intro hfresh
    refine ⟨by simp [store_message, h], rfl, ?_⟩
    have hkeys : ∀ x ∈ w.messages.filter (fun m => m.conversationId == chat_id),
        ∀ y ∈ [(⟨toString w.localClock, chat_id, q1, a1, w.serverTime, uid⟩ : MessageDoc),
               ⟨toString (w.localClock + 1), chat_id, q2, a2, w.serverTime + 1, uid⟩],
        Nat.ble x.createdAt y.createdAt = true := by
      intro x hx y hy
      have hx' := hfresh x (List.mem_filter.mp hx).1
      rcases List.mem_cons.mp hy with rfl | hy2
      · simp only [Nat.ble_eq]
        omega
      · rcases List.mem_cons.mp hy2 with rfl | hy3
        · simp only [Nat.ble_eq]
          omega
        · cases hy3
    have hfilter : (((w.messages ++
          ([⟨toString w.localClock, chat_id, q1, a1, w.serverTime, uid⟩] : List MessageDoc)) ++
          ([⟨toString (w.localClock + 1), chat_id, q2, a2, w.serverTime + 1, uid⟩] : List MessageDoc)).filter
            (fun m => m.conversationId == chat_id)) =
        w.messages.filter (fun m => m.conversationId == chat_id) ++
          [⟨toString w.localClock, chat_id, q1, a1, w.serverTime, uid⟩,
           ⟨toString (w.localClock + 1), chat_id, q2, a2, w.serverTime + 1, uid⟩] := by
      simp [List.filter_append]
    simp only [get_chat_messages, get_db, hfilter]
    rw [sortBy_append _ _ hkeys]
    congr 1
    simp [sortBy, insertBy, Nat.ble_eq, Nat.le_succ]

/-- Messages of two threads with distinct creation times, all older than
the server clock. -/
def wMsgs : World :=
  ⟨[], [⟨"100", "c1", "q0", "a0", 0, "u1"⟩, ⟨"101", "c2", "qx", "ax", 1, "u2"⟩],
   0, 2, 102⟩

/-- Witness for C7 on a store with messages of two threads. -/
theorem C7_list_messages_witness :
    get_db envDefaultOk initial_db = some ⟨some "proj"⟩ ∧
    ((∃ l, get_chat_messages envDefaultOk initial_db wMsgs "u1" "c1" =
        ⟨some ⟨some "proj"⟩, wMsgs, .ok l⟩ ∧
      List.Perm l (wMsgs.messages.filter (fun m => m.conversationId == "c1")) ∧
      (∀ m ∈ l, m.conversationId = "c1") ∧
      (∀ m ∈ wMsgs.messages, m.conversationId = "c1" → m ∈ l) ∧
      l.Pairwise (fun a b => a.createdAt ≤ b.createdAt) ∧
      (wMsgs.messages.Pairwise (fun a b => a.createdAt ≠ b.createdAt) →
        l.Pairwise (fun a b => a.createdAt < b.createdAt))) ∧
    ((∀ m ∈ wMsgs.messages, m.createdAt < wMsgs.serverTime) →
      store_message envDefaultOk initial_db wMsgs "u1" "c1" "q1" "a1" =
        ⟨some ⟨some "proj"⟩,
         { wMsgs with
             messages := wMsgs.messages ++
               [⟨toString wMsgs.localClock, "c1", "q1", "a1", wMsgs.serverTime, "u1"⟩],
             serverTime := wMsgs.serverTime + 1,
             localClock := wMsgs.localClock + 1 },
         .ok true⟩ ∧
      store_message envDefaultOk (some ⟨some "proj"⟩)
        { wMsgs with
            messages := wMsgs.messages ++
              [⟨toString wMsgs.localClock, "c1", "q1", "a1", wMsgs.serverTime, "u1"⟩],
            serverTime := wMsgs.serverTime + 1,
            localClock := wMsgs.localClock + 1 } "u1" "c1" "q2" "a2" =
        ⟨some ⟨some "proj"⟩,
         { wMsgs with
             messages := (wMsgs.messages ++
               [⟨toString wMsgs.localClock, "c1", "q1", "a1", wMsgs.serverTime, "u1"⟩]) ++
               [⟨toString (wMsgs.localClock + 1), "c1", "q2", "a2", wMsgs.serverTime + 1, "u1"⟩],
             serverTime := wMsgs.serverTime + 1 + 1,
             localClock := wMsgs.localClock + 1 + 1 },
         .ok true⟩ ∧
      (get_chat_messages envDefaultOk (some ⟨some "proj"⟩)
        { wMsgs with
            messages := (wMsgs.messages ++
              [⟨toString wMsgs.localClock, "c1", "q1", "a1", wMsgs.serverTime, "u1"⟩]) ++
              [⟨toString (wMsgs.localClock + 1), "c1", "q2", "a2", wMsgs.serverTime + 1, "u1"⟩],
            serverTime := wMsgs.serverTime + 1 + 1,
            localClock := wMsgs.localClock + 1 + 1 } "u9" "c1").result =
        .ok (sortBy (fun a b => Nat.ble a.createdAt b.createdAt)
              (wMsgs.messages.filter (fun m => m.conversationId == "c1")) ++
            [⟨toString wMsgs.localClock, "c1", "q1", "a1", wMsgs.serverTime, "u1"⟩,
             ⟨toString (wMsgs.localClock + 1), "c1", "q2", "a2", wMsgs.serverTime + 1, "u1"⟩]))) :=
  ⟨rfl, C7_list_messages envDefaultOk initial_db wMsgs
    "u1" "u9" "c1" "q1" "a1" "q2" "a2" ⟨some "proj"⟩ rfl⟩

/-- C8: with the handle available, append message inserts exactly one
record into `"messages"` — its id the string rendering of the local wall
clock, its `conversationId` the given thread id, the question and answer
texts, the given user id, and the server-assigned creation timestamp —
touches nothing else, and returns the success flag `True`. -/
theorem C8_store_message (env : Env) (db : Option Client) (w : World)
    (uid chat_id user_msg ai_msg : String) (c : Client)
    (h : get_db env db = some c) :
    store_message env db w uid chat_id user_msg ai_msg =
      ⟨some c,
       { w with
           messages := w.messages ++
             [⟨toString w.localClock, chat_id, user_msg, ai_msg, w.serverTime, uid⟩],
           serverTime := w.serverTime + 1,
           localClock := w.localClock + 1 },
       .ok true⟩ := by
  simp [store_message, h]

/-- Witness for C8 on the empty store. -/
theorem C8_store_message_witness :
    get_db envDefaultOk initial_db = some ⟨some "proj"⟩ ∧
    store_message envDefaultOk initial_db w0 "u1" "c1" "hello" "hi" =
      ⟨some ⟨some "proj"⟩,
       { w0 with
           messages := w0.messages ++
             [⟨toString w0.localClock, "c1", "hello", "hi", w0.serverTime, "u1"⟩],
           serverTime := w0.serverTime + 1,
           localClock := w0.localClock + 1 },
       .ok true⟩ :=
  ⟨rfl, C8_store_message envDefaultOk initial_db w0 "u1" "c1" "hello" "hi"
    ⟨some "proj"⟩ rfl⟩

/-- C9: no referential integrity — for any thread id, including one no
stored thread record carries, appending a message with that id succeeds
with the flag `True` (the hypothesis that the thread does not exist is
never consulted), and the orphaned record is returned by a subsequent
list-messages call for that thread id. -/
theorem C9_no_referential_integrity (env : Env) (db : Option Client)
    (w : World) (uid chat_id user_msg ai_msg : String) (c : Client)
    (h : get_db env db = some c)
    (horphan : ∀ t ∈ w.conversations, t.id ≠ chat_id) :
    (store_message env db w uid chat_id user_msg ai_msg).result = .ok true ∧
    (∃ l, (get_chat_messages env
        (store_message env db w uid chat_id user_msg ai_msg).db
        (store_message env db w uid chat_id user_msg ai_msg).world
        uid chat_id).result = .ok l ∧
      (⟨toString w.localClock, chat_id, user_msg, ai_msg, w.serverTime, uid⟩ :
        MessageDoc) ∈ l) := by
  simp only [store_message, h]
  refine ⟨trivial, ?_⟩
  refine ⟨_, rfl, ?_⟩
  rw [mem_sortBy]
  simp

/-- A store that has a thread record, but none with id `"ghost"`. -/
def wOneThread : World :=
  ⟨[⟨"t1", "A", 0, "u1"⟩], [], 1, 1, 50⟩

/-- Witness for C9: appending to the non-existent thread `"ghost"`. -/
theorem C9_no_referential_integrity_witness :
    get_db envDefaultOk initial_db = some ⟨some "proj"⟩ ∧
    (∀ t ∈ wOneThread.conversations, t.id ≠ "ghost") ∧
    ((store_message envDefaultOk initial_db wOneThread "u1" "ghost" "q" "a").result =
      .ok true ∧
    (∃ l, (get_chat_messages envDefaultOk
        (store_message envDefaultOk initial_db wOneThread "u1" "ghost" "q" "a").db
        (store_message envDefaultOk initial_db wOneThread "u1" "ghost" "q" "a").world
        "u1" "ghost").result = .ok l ∧
      (⟨toString wOneThread.localClock, "ghost", "q", "a", wOneThread.serverTime, "u1"⟩ :
        MessageDoc) ∈ l)) :=
  ⟨rfl, by decide,
   C9_no_referential_integrity envDefaultOk initial_db wOneThread "u1" "ghost"
     "q" "a" ⟨some "proj"⟩ rfl (by decide)⟩

/-- C10: the result of list messages is independent of its user id
argument — the `uid` parameter is accepted and never used, so any two
calls agreeing on everything but the user id coincide exactly, and any
caller-supplied user id can read the messages of any thread. -/
theorem C10_messages_uid_independent (env : Env) (db : Option Client)
    (w : World) (uid1 uid2 chat_id : String) :
    get_chat_messages env db w uid1 chat_id =
      get_chat_messages env db w uid2 chat_id := rfl
